import Mathlib

/-!
Shallow embedding of the EDA notebook
`notebooks/01_eda_and_feature_selection.ipynb` of the
water-quality-classification repository.

The notebook is a linear script over one in-memory pandas DataFrame:
create the figures directory, load a CSV (catching only
`FileNotFoundError`), print an overview, partition columns by dtype,
scan for identifier columns, analyze correlation with the `WQI` column,
plot the distribution of the `Water Quality Classification` column, and
plot each numerical feature.

Modelling choices, each taken from the source:
* A DataFrame is a `Table`: a list of named, dtype-tagged columns.
  `pd.read_csv` without `dtype`/`parse_dates` arguments infers the
  dtypes `int64`/`float64` (here `Dtype.numeric`), `object`
  (`Dtype.text`), and `bool` for all-True/False columns
  (`Dtype.boolean`); no other dtype is reachable, so these three are the
  whole `Dtype`.
* Numeric cell values are idealized as rationals (the float64
  computations of pandas, without rounding).
* The filesystem is the list of paths that exist; `os.makedirs` and
  `plt.savefig` add paths, printed lines are collected in a list, and
  an uncaught pandas exception is an `Option PdError` that aborts the
  rest of the run.
* `df.select_dtypes(include='number')` excludes `bool` columns, while
  `df.corr(numeric_only=True)` keeps them (casting `True`/`False` to
  `1`/`0`); the embedding keeps both column selections apart
  (`numericalNames` vs `numericLikeNames`).
-/

/-- Storage type of a loaded column, as inferred by `pd.read_csv`:
`numeric` for `int64`/`float64`, `text` for `object`, `boolean` for
`bool` (a CSV column holding only `True`/`False`). -/
inductive Dtype where
  | numeric
  | text
  | boolean
deriving DecidableEq, Repr

/-- A cell value of the table. -/
inductive Value where
  | num (q : ℚ)
  | str (s : String)
  | bool (b : Bool)
deriving DecidableEq, Repr

/-- The numeric view of a cell, as `df.corr` sees it: rationals stay
themselves, booleans are cast to `1`/`0`.  Text cells never reach a
numeric computation in the source; they are mapped to `0` only to keep
the function total. -/
def Value.toRat : Value → ℚ
  | .num q => q
  | .bool b => if b then 1 else 0
  | .str _ => 0

/-- One column of the DataFrame: its name, its inferred storage type
and its cells, top to bottom. -/
structure Column where
  name : String
  dtype : Dtype
  vals : List Value
deriving DecidableEq, Repr

/-- The numeric contents of a column (`df[col]` as floats). -/
def Column.numVals (c : Column) : List ℚ :=
  c.vals.map Value.toRat

/-- `df[col].is_unique`: all cells of the column are pairwise
distinct. -/
def Column.is_unique (c : Column) : Bool :=
  decide c.vals.Nodup

/-- The in-memory DataFrame `df`: an ordered list of columns. -/
structure Table where
  cols : List Column
deriving DecidableEq, Repr

/-- `df.shape[0]`: the row count (every column has this length in a
well-formed table). -/
def Table.nrows (t : Table) : Nat :=
  match t.cols with
  | [] => 0
  | c :: _ => c.vals.length

/-- `df.empty`: true when the table has no columns or no rows. -/
def Table.empty (t : Table) : Bool :=
  t.cols.isEmpty || t.nrows == 0

/-- `df.columns`: the column names in order. -/
def Table.colNames (t : Table) : List String :=
  t.cols.map Column.name

/-- Does a cell value match the column's declared storage type? -/
def valueMatches : Dtype → Value → Bool
  | .numeric, .num _ => true
  | .text, .str _ => true
  | .boolean, .bool _ => true
  | _, _ => false

/-- Well-formedness of a loaded DataFrame: column names are distinct
(`read_csv` mangles duplicate headers), all columns have the same
length, and cells match their column's dtype.  Every table produced by
`pd.read_csv` satisfies this. -/
def Table.wf (t : Table) : Prop :=
  t.colNames.Nodup ∧
    ∀ c ∈ t.cols, c.vals.length = t.nrows ∧ ∀ v ∈ c.vals, valueMatches c.dtype v = true

instance (t : Table) : Decidable t.wf := by
  unfold Table.wf; infer_instance

/-- `df.select_dtypes(include='number').columns.tolist()` — the
`numerical` list of the notebook.  `np.number` excludes `bool`. -/
def Table.numericalNames (t : Table) : List String :=
  (t.cols.filter (fun c => c.dtype == Dtype.numeric)).map Column.name

/-- `df.select_dtypes(include='object').columns.tolist()` — the
`categorical` list of the notebook. -/
def Table.categoricalNames (t : Table) : List String :=
  (t.cols.filter (fun c => c.dtype == Dtype.text)).map Column.name

/-- Is the dtype kept by `df.corr(numeric_only=True)`?  Numeric and
boolean columns are; object columns are dropped. -/
def Dtype.isNumericLike : Dtype → Bool
  | .numeric => true
  | .boolean => true
  | .text => false

/-- The columns that survive `numeric_only=True`. -/
def Table.numericLikeCols (t : Table) : List Column :=
  t.cols.filter (fun c => c.dtype.isNumericLike)

/-- The names indexing `df.corr(numeric_only=True)`. -/
def Table.numericLikeNames (t : Table) : List String :=
  t.numericLikeCols.map Column.name

/-- `df[n]`: the first column named `n`, if any. -/
def Table.getCol (t : Table) (n : String) : Option Column :=
  t.cols.find? (fun c => c.name == n)

/-- Whether no column has boolean storage type (the dtypes the spec
anticipates: numeric and text only). -/
def Table.noBoolCols (t : Table) : Bool :=
  t.cols.all (fun c => !(c.dtype == Dtype.boolean))

/-- The identifier scan of cell 4: the names of the columns `col` with
`df[col].is_unique`. -/
def Table.identifierNames (t : Table) : List String :=
  (t.cols.filter Column.is_unique).map Column.name

/-! ### The run: filesystem, messages and uncaught exceptions -/

/-- An exception a pandas call can raise during the run.
`fileNotFound` is raised by `pd.read_csv` on a missing path and is the
only one the notebook catches; `parserError` is raised by `pd.read_csv`
on a file it cannot parse; `keyError` is raised by `df[n]` when no
column is named `n`. -/
inductive PdError where
  | fileNotFound
  | parserError
  | keyError
deriving DecidableEq, Repr

/-- The contents found at `data/raw/water_quality.csv`:
no file at all, a file `pd.read_csv` cannot parse, or a file that
parses to a table. -/
inductive CsvData where
  | missing
  | malformed
  | table (t : Table)

/-- `pd.read_csv("data/raw/water_quality.csv")`. -/
def read_csv : CsvData → Except PdError Table
  | .missing => .error .fileNotFound
  | .malformed => .error .parserError
  | .table t => .ok t

/-- The directory created for figures. -/
def figuresDir : String := "reports/figures"

/-- The path `plt.savefig` writes the correlation heatmap to. -/
def heatmapPath : String := "reports/figures/correlation_heatmap.png"

/-- The path of the target-distribution plot. -/
def targetPlotPath : String := "reports/figures/target_variable_distribution.png"

/-- The per-column distribution figure path. -/
def distPath (c : String) : String :=
  "reports/figures/distribution_" ++ c ++ ".png"

/-- The name of the categorical target label column. -/
def targetColName : String := "Water Quality Classification"

def msgLoaded : String := "Dataset loaded successfully."

def msgNotFound1 : String := "Error: data/raw/water_quality.csv not found."

def msgNotFound2 : String := "Please ensure the dataset is in the correct directory."

def wqiWarning : String := "WQI column not found. Please verify dataset."

def targetWarning : String := "Water Quality Classification column not found."

/-- Result of the Loader cell: the bound `df`, the lines it printed and
the exception it let escape, if any. -/
structure LoadOut where
  df : Table
  msgs : List String
  err : Option PdError
deriving DecidableEq, Repr

/-- Cell 1, the load: `try: df = pd.read_csv(...) except
FileNotFoundError: ... df = pd.DataFrame()`.  Only `FileNotFoundError`
is caught and replaced by an empty table plus two printed lines; any
other exception of `read_csv` escapes. -/
def loadStage (input : CsvData) : LoadOut :=
  match read_csv input with
  | .ok t => ⟨t, [msgLoaded], none⟩
  | .error .fileNotFound => ⟨Table.mk [], [msgNotFound1, msgNotFound2], none⟩
  | .error e => ⟨Table.mk [], [], some e⟩

/-- `if not os.path.exists('reports/figures'): os.makedirs(...)`,
run before the load. -/
def mkFiguresDir (fs : List String) : List String :=
  if figuresDir ∈ fs then fs else figuresDir :: fs

/-- Result of one guarded cell: the filesystem after it, the lines it
printed, and the exception it raised, if any. -/
structure StageOut where
  fs : List String
  msgs : List String
  err : Option PdError
deriving DecidableEq, Repr

/-- Cell 2, the overview: pure prints, guarded by `if not df.empty`. -/
def overviewMsgs (df : Table) : List String :=
  if df.empty then []
  else ["Shape of Dataset", "Dataset Info", "Summary Statistics",
    "Columns in Dataset", "Missing Values Check"]

/-- Cell 3, the type classifier prints, guarded by `if not df.empty`. -/
def classifierMsgs (df : Table) : List String :=
  if df.empty then []
  else ["Numerical Columns", "Categorical Columns"]

/-- Cell 4, the identifier check prints, guarded by `if not df.empty`:
one line per all-unique column, or a fallback line when none is. -/
def identifierMsgs (df : Table) : List String :=
  if df.empty then []
  else if df.identifierNames.isEmpty then
    ["Checking for Identifier Columns...", "No identifier columns found."]
  else
    "Checking for Identifier Columns..." ::
      df.identifierNames.map
        (fun n => n ++ " is likely an identifier column as all its values are unique.")

/-- Cell 5.1, the WQI correlation analysis.  The guard is
`if 'WQI' in df.columns`; inside it, `correlation = df.corr(numeric_only=True)`
followed by `correlation['WQI']`, which raises `KeyError` when `WQI`
is not among the numeric-like columns (the guard never checked the
dtype).  On success the sorted correlations are printed and the heatmap
is saved; on the failed guard a warning is printed instead. -/
def corrStage (df : Table) (fs : List String) : StageOut :=
  if "WQI" ∈ df.colNames then
    if "WQI" ∈ df.numericLikeNames then
      ⟨heatmapPath :: fs,
        ["Correlation with WQI:",
          "Correlation heatmap saved to reports/figures/correlation_heatmap.png"],
        none⟩
    else ⟨fs, [], some .keyError⟩
  else ⟨fs, [wqiWarning], none⟩

/-- Cell 6.1, the target-distribution plot, guarded by
`if 'Water Quality Classification' in df.columns`: saves the count
plot and prints the class balance, else prints a warning. -/
def targetStage (df : Table) (fs : List String) : StageOut :=
  if targetColName ∈ df.colNames then
    ⟨targetPlotPath :: fs,
      ["Target variable distribution plot saved to reports/figures/target_variable_distribution.png",
        "Class Balance:"],
      none⟩
  else ⟨fs, [targetWarning], none⟩

/-- Cell 7.1, the per-feature histogram/box plots, guarded by
`if not df.empty`: saves one figure per numerical column. -/
def featureDistStage (df : Table) (fs : List String) : StageOut :=
  if df.empty then ⟨fs, [], none⟩
  else
    ⟨df.numericalNames.map distPath ++ fs,
      ["Visualizing Numerical Feature Distributions...",
        "All numerical distribution plots saved to reports/figures/."],
      none⟩

/-- The whole notebook, top to bottom, starting from the filesystem
`fs0` and the contents of the input CSV path.  An uncaught exception
aborts the remaining cells, as a top-to-bottom run does. -/
def runWorkflow (fs0 : List String) (input : CsvData) : StageOut :=
  let fs1 := mkFiguresDir fs0
  let l := loadStage input
  match l.err with
  | some e => ⟨fs1, l.msgs, some e⟩
  | none =>
    let df := l.df
    let m := l.msgs ++ overviewMsgs df ++ classifierMsgs df ++ identifierMsgs df
    let s5 := corrStage df fs1
    match s5.err with
    | some e => ⟨s5.fs, m ++ s5.msgs, some e⟩
    | none =>
      let s6 := targetStage df s5.fs
      let s7 := featureDistStage df s6.fs
      ⟨s7.fs, m ++ s5.msgs ++ s6.msgs ++ s7.msgs, none⟩

/-! ### Pearson correlation (`df.corr(numeric_only=True)`)

Pandas computes `r = cov(x,y) / (std(x) * std(y))`; with both the
covariance and the standard deviations carrying the same `1/(n-1)`
factor, the factor cancels and
`r = Σ(x-x̄)(y-ȳ) / (√Σ(x-x̄)² * √Σ(y-ȳ)²)`,
which is the form embedded here over the rational cell values, with
real square roots. -/

/-- The arithmetic mean of a column's values (`0` for the empty
column, where pandas has `NaN`; the value is never used there). -/
def listMean (xs : List ℚ) : ℚ :=
  xs.sum / (xs.length : ℚ)

/-- The sum of products of paired deviations from the means,
`Σ (xᵢ - x̄)(yᵢ - ȳ)`. -/
def sxy (xs ys : List ℚ) : ℚ :=
  (List.zipWith (fun a b => (a - listMean xs) * (b - listMean ys)) xs ys).sum

/-- The sum of squared deviations `Σ (xᵢ - x̄)²`.  It is zero exactly
when the column's sample variance is zero or undefined (constant
column, or fewer than two rows). -/
def ssd (xs : List ℚ) : ℚ :=
  (xs.map (fun a => (a - listMean xs) * (a - listMean xs))).sum

/-- One entry of the Pearson correlation matrix, over the idealized
reals.  Where pandas yields `NaN` (a zero denominator), the real
division yields `0`. -/
noncomputable def corrVal (xs ys : List ℚ) : ℝ :=
  (sxy xs ys : ℝ) / (Real.sqrt (ssd xs : ℚ) * Real.sqrt (ssd ys : ℚ))

/-- `df.corr(numeric_only=True)` as a function of two column names:
the Pearson correlation of the two columns when both exist and both
survive `numeric_only=True`, and `0` (an entry outside the matrix)
otherwise. -/
noncomputable def Table.corrMatrix (t : Table) (a b : String) : ℝ :=
  match t.getCol a, t.getCol b with
  | some ca, some cb =>
    if ca.dtype.isNumericLike && cb.dtype.isNumericLike then
      corrVal ca.numVals cb.numVals
    else 0
  | _, _ => 0

/-- The sum of squared deviations of the column named `n` (`0` when
the name is absent).  `t.ssdOf n ≠ 0` says the column has non-zero
variance. -/
def Table.ssdOf (t : Table) (n : String) : ℚ :=
  match t.getCol n with
  | some c => ssd c.numVals
  | none => 0

/-- `correlation['WQI']`: the WQI column of the correlation matrix,
indexed by the numeric-like column names in table order. -/
noncomputable def Table.wqiRow (t : Table) : List (String × ℝ) :=
  t.numericLikeNames.map (fun n => (n, t.corrMatrix n "WQI"))

/-- The descending order on named correlation entries used by
`sort_values(ascending=False)`: a later entry's value is at most the
earlier one's. -/
def descRel (p q : String × ℝ) : Prop :=
  q.2 ≤ p.2

noncomputable instance : DecidableRel descRel :=
  fun p q => Real.decidableLE q.2 p.2

instance : IsTotal (String × ℝ) descRel :=
  ⟨fun p q => le_total q.2 p.2⟩

instance : IsTrans (String × ℝ) descRel :=
  ⟨fun _ _ _ hab hbc => le_trans hbc hab⟩

/-- `wqi_corr = correlation['WQI'].sort_values(ascending=False)`: the
WQI correlation row, sorted by descending correlation value, as
printed by the correlation cell. -/
noncomputable def Table.wqiCorrSorted (t : Table) : List (String × ℝ) :=
  t.wqiRow.insertionSort descRel

/-! ### Concrete tables used as witnesses and counterexamples -/

/-- A well-formed table as `read_csv` would produce it from a clean
CSV: a numeric `WQI` column with two distinct values and a text `ID`
column. -/
def tGood : Table :=
  ⟨[⟨"WQI", Dtype.numeric, [Value.num 0, Value.num 2]⟩,
    ⟨"ID", Dtype.text, [Value.str "a", Value.str "b"]⟩]⟩

/-- A well-formed table whose `WQI` column has text (object) storage
type: the correlation guard lets it through, but `correlation['WQI']`
raises `KeyError` because `numeric_only=True` dropped the column. -/
def tBadWQI : Table :=
  ⟨[⟨"WQI", Dtype.text, [Value.str "x", Value.str "y"]⟩,
    ⟨"pH", Dtype.numeric, [Value.num 1, Value.num 2]⟩]⟩

/-- A well-formed table with a boolean column, as `read_csv` infers
for a CSV column holding only `True`/`False`: the column is neither
in `select_dtypes(include='number')` nor in
`select_dtypes(include='object')`. -/
def tBool : Table :=
  ⟨[⟨"pH", Dtype.numeric, [Value.num 1, Value.num 2]⟩,
    ⟨"Flag", Dtype.boolean, [Value.bool true, Value.bool false]⟩]⟩

/-- A well-formed table with neither target column. -/
def tNoTargets : Table :=
  ⟨[⟨"pH", Dtype.numeric, [Value.num 1, Value.num 2]⟩]⟩

/-! ### Lemmas about the correlation statistics -/

theorem sxy_self (xs : List ℚ) : sxy xs xs = ssd xs := by
  unfold sxy ssd
  rw [List.zipWith_same]

theorem sxy_comm (xs ys : List ℚ) : sxy xs ys = sxy ys xs := by
  unfold sxy
  have h : (fun (b a : ℚ) => (a - listMean xs) * (b - listMean ys)) =
      fun (b a : ℚ) => (b - listMean ys) * (a - listMean xs) := by
    funext b a
    ring
  rw [List.zipWith_comm, h]

theorem ssd_nonneg (xs : List ℚ) : 0 ≤ ssd xs := by
  unfold ssd
  apply List.sum_nonneg
  intro x hx
  obtain ⟨a, _, rfl⟩ := List.mem_map.mp hx
  exact mul_self_nonneg _

theorem corrVal_comm (xs ys : List ℚ) : corrVal xs ys = corrVal ys xs := by
  unfold corrVal
  rw [sxy_comm, mul_comm]

theorem corrVal_self (xs : List ℚ) (h : ssd xs ≠ 0) : corrVal xs xs = 1 := by
  unfold corrVal
  rw [sxy_self, Real.mul_self_sqrt (by exact_mod_cast ssd_nonneg xs)]
  exact div_self (by exact_mod_cast h)

theorem corrMatrix_comm (t : Table) (a b : String) :
    t.corrMatrix a b = t.corrMatrix b a := by
  unfold Table.corrMatrix
  rcases t.getCol a with _ | ca <;> rcases t.getCol b with _ | cb <;> simp
  by_cases h1 : ca.dtype.isNumericLike = true <;>
    by_cases h2 : cb.dtype.isNumericLike = true <;>
      simp [h1, h2, corrVal_comm]

/-- With distinct column names, `df[c.name]` finds exactly `c`. -/
theorem find_name_eq (cs : List Column) (h : (cs.map Column.name).Nodup)
    (c : Column) (hc : c ∈ cs) :
    cs.find? (fun x => x.name == c.name) = some c := by
  induction cs with
  | nil => cases hc
  | cons d rest ih =>
    rw [List.map_cons, List.nodup_cons] at h
    rcases List.mem_cons.mp hc with rfl | hmem
    · exact List.find?_cons_of_pos _ (by simp)
    · have hne : ¬ (d.name == c.name) = true := by
        simp only [beq_iff_eq]
        intro he
        exact h.1 (he ▸ List.mem_map_of_mem Column.name hmem)
      have hstep : List.find? (fun x => x.name == c.name) (d :: rest) =
          List.find? (fun x => x.name == c.name) rest :=
        List.find?_cons_of_neg rest hne
      rw [hstep]
      exact ih h.2 hmem

/-- A member of the `numerical` list is realized by a lookup that
returns a numeric column. -/
theorem getCol_of_mem_numerical (t : Table) (hn : t.colNames.Nodup) {x : String}
    (hx : x ∈ t.numericalNames) :
    ∃ col, t.getCol x = some col ∧ col.dtype = Dtype.numeric := by
  obtain ⟨col, hcolmem, rfl⟩ := List.mem_map.mp hx
  have hf := List.mem_filter.mp hcolmem
  refine ⟨col, ?_, by simpa using hf.2⟩
  exact find_name_eq _ hn _ hf.1

/-- A list has pairwise-distinct entries iff deduplication keeps its
length. -/
theorem nodup_iff_dedup_length (l : List Value) :
    l.Nodup ↔ l.dedup.length = l.length := by
  constructor
  · intro h
    rw [List.dedup_eq_self.mpr h]
  · intro h
    exact List.dedup_eq_self.mp ((l.dedup_sublist).eq_of_length h)

/-- C1.  Loading a nonexistent CSV file: the Loader binds an empty
table, prints the two error lines, and lets no exception escape the
load stage. -/
theorem loader_missing_yields_empty_table :
    (loadStage CsvData.missing).df.empty = true ∧
      (loadStage CsvData.missing).msgs = [msgNotFound1, msgNotFound2] ∧
      (loadStage CsvData.missing).err = none :=
  ⟨rfl, rfl, rfl⟩

/-- C2, as stated, is false: `read_csv` infers the `bool` dtype for a
CSV column holding only `True`/`False` (here column `Flag` of `tBool`),
and such a column is in neither `select_dtypes(include='number')` nor
`select_dtypes(include='object')`, so the union of the two sets misses
it. -/
theorem dtype_partition_counterexample :
    tBool.wf ∧ tBool.empty = false ∧
      ¬ ("Flag" ∈ tBool.colNames ↔
          "Flag" ∈ tBool.numericalNames ∨ "Flag" ∈ tBool.categoricalNames) := by
  refine ⟨by decide, by decide, fun h => ?_⟩
  rcases h.mp (by decide) with h1 | h1 <;> revert h1 <;> decide

/-- C2, amended.  For a well-formed non-empty table, the numerical and
categorical column-name sets are disjoint, and when no column has
boolean storage type their union is the set of all columns. -/
theorem dtype_partition (t : Table) (x : String) (hwf : t.wf) (hne : t.empty = false) :
    (x ∈ t.numericalNames → x ∉ t.categoricalNames) ∧
      (t.noBoolCols = true →
        (x ∈ t.colNames ↔ x ∈ t.numericalNames ∨ x ∈ t.categoricalNames)) := by
  constructor
  · intro hn hcat
    obtain ⟨c1, hc1, hx1⟩ := List.mem_map.mp hn
    obtain ⟨c2, hc2, hx2⟩ := List.mem_map.mp hcat
    have hf1 := List.mem_filter.mp hc1
    have hf2 := List.mem_filter.mp hc2
    have hcc : c1 = c2 :=
      List.inj_on_of_nodup_map hwf.1 hf1.1 hf2.1 (hx1.trans hx2.symm)
    have e1 : c1.dtype = Dtype.numeric := by simpa using hf1.2
    have e2 : c2.dtype = Dtype.text := by simpa using hf2.2
    rw [hcc, e2] at e1
    cases e1
  · intro hnb
    constructor
    · intro hx
      obtain ⟨c, hc, rfl⟩ := List.mem_map.mp hx
      have hb : ¬ c.dtype = Dtype.boolean := by
        simpa using List.all_eq_true.mp hnb c hc
      cases hdt : c.dtype with
      | numeric =>
        exact Or.inl (List.mem_map_of_mem _ (List.mem_filter.mpr ⟨hc, by simp [hdt]⟩))
      | text =>
        exact Or.inr (List.mem_map_of_mem _ (List.mem_filter.mpr ⟨hc, by simp [hdt]⟩))
      | boolean => exact absurd hdt hb
    · intro hx
      rcases hx with hx | hx <;>
        obtain ⟨c, hc, rfl⟩ := List.mem_map.mp hx <;>
          exact List.mem_map_of_mem _ (List.mem_filter.mp hc).1

/-- Witness for the amended C2 at `tGood` and the column name `pH`
(absent, so the partition is checked on a name outside as well as the
hypotheses being satisfiable). -/
theorem dtype_partition_witness :
    tGood.wf ∧ tGood.empty = false ∧ tGood.noBoolCols = true ∧
      ("WQI" ∈ tGood.numericalNames → "WQI" ∉ tGood.categoricalNames) ∧
      ("WQI" ∈ tGood.colNames ↔ "WQI" ∈ tGood.numericalNames ∨ "WQI" ∈ tGood.categoricalNames) := by
  have h := dtype_partition tGood "WQI" (by decide) (by decide)
  exact ⟨by decide, by decide, by decide, h.1, h.2 (by decide)⟩

/-- C3.  For a well-formed non-empty table, the identifier scan flags a
column exactly when its number of distinct values equals the row
count. -/
theorem identifier_iff_distinct_count (t : Table) (c : Column) (hwf : t.wf)
    (hne : t.empty = false) (hc : c ∈ t.cols) :
    c.name ∈ t.identifierNames ↔ c.vals.dedup.length = t.nrows := by
  have hlen : c.vals.length = t.nrows := (hwf.2 c hc).1
  have hmemiff : c.name ∈ t.identifierNames ↔ c.is_unique = true := by
    constructor
    · intro h
      obtain ⟨c2, hc2, hname⟩ := List.mem_map.mp h
      have hf := List.mem_filter.mp hc2
      have hcc : c2 = c := List.inj_on_of_nodup_map hwf.1 hf.1 hc hname
      exact hcc ▸ hf.2
    · intro h
      exact List.mem_map_of_mem Column.name (List.mem_filter.mpr ⟨hc, h⟩)
  rw [hmemiff]
  unfold Column.is_unique
  rw [decide_eq_true_iff, nodup_iff_dedup_length, hlen]

/-- Witness for C3 at the `ID` column of `tGood`: it is flagged and
its distinct count is the row count. -/
theorem identifier_iff_distinct_count_witness :
    tGood.wf ∧ tGood.empty = false ∧
      (⟨"ID", Dtype.text, [Value.str "a", Value.str "b"]⟩ : Column) ∈ tGood.cols ∧
      ((⟨"ID", Dtype.text, [Value.str "a", Value.str "b"]⟩ : Column).name ∈ tGood.identifierNames ↔
        (⟨"ID", Dtype.text, [Value.str "a", Value.str "b"]⟩ : Column).vals.dedup.length = tGood.nrows) := by
  refine ⟨by decide, by decide, by decide, ?_⟩
  exact identifier_iff_distinct_count tGood _ (by decide) (by decide) (by decide)

/-- C4, as stated, is false on two concrete inputs: a malformed CSV
makes `pd.read_csv` raise `ParserError`, which the `except
FileNotFoundError` clause does not catch; and the well-formed table
`tBadWQI`, whose `WQI` column has object dtype, makes
`correlation['WQI']` raise `KeyError` inside the correlation cell.  In
both runs the workflow aborts instead of completing. -/
theorem workflow_total_counterexample :
    (runWorkflow [] CsvData.malformed).err = some PdError.parserError ∧
      tBadWQI.wf ∧
      (runWorkflow [] (CsvData.table tBadWQI)).err = some PdError.keyError := by
  refine ⟨rfl, by decide, rfl⟩

/-- C4, amended.  A run completes normally (no stage raises, skipped
stages only warn) whenever the CSV is missing, or parses to a table
whose `WQI` column — if present — survives `numeric_only=True`
(numeric or boolean dtype). -/
theorem workflow_total_on_clean_inputs (fs0 : List String) (t : Table)
    (hWQI : "WQI" ∈ t.colNames → "WQI" ∈ t.numericLikeNames) :
    (runWorkflow fs0 (CsvData.table t)).err = none ∧
      (runWorkflow fs0 CsvData.missing).err = none := by
  constructor
  · unfold runWorkflow loadStage read_csv
    by_cases h1 : "WQI" ∈ t.colNames
    · have h2 := hWQI h1
      simp [corrStage, h1, h2]
    · simp [corrStage, h1]
  · rfl

/-- Witness for the amended C4 at `tGood` and the empty filesystem. -/
theorem workflow_total_on_clean_inputs_witness :
    ("WQI" ∈ tGood.colNames → "WQI" ∈ tGood.numericLikeNames) ∧
      (runWorkflow [] (CsvData.table tGood)).err = none ∧
      (runWorkflow [] CsvData.missing).err = none :=
  ⟨by decide, workflow_total_on_clean_inputs [] tGood (by decide)⟩

/-- C5.  For a well-formed table, the correlation matrix is symmetric,
and its diagonal entry at a numerical column with non-zero variance
(non-zero sum of squared deviations) is `1`. -/
theorem corrMatrix_symm_diag_one (t : Table) (a b c : String) (hwf : t.wf) :
    t.corrMatrix a b = t.corrMatrix b a ∧
      (c ∈ t.numericalNames → t.ssdOf c ≠ 0 → t.corrMatrix c c = 1) := by
  refine ⟨corrMatrix_comm t a b, fun hc hv => ?_⟩
  obtain ⟨col, hcol, hdt⟩ := getCol_of_mem_numerical t hwf.1 hc
  have hssd : t.ssdOf c = ssd col.numVals := by
    unfold Table.ssdOf
    rw [hcol]
  unfold Table.corrMatrix
  rw [hcol]
  simp only [hdt, Dtype.isNumericLike, Bool.and_self, if_pos]
  exact corrVal_self _ (hssd ▸ hv)

/-- Witness for C5 at `tGood`: its `WQI` column is numerical with
non-zero variance and diagonal correlation `1`; symmetry is checked at
the pair (`WQI`, `ID`). -/
theorem corrMatrix_symm_diag_one_witness :
    tGood.wf ∧ "WQI" ∈ tGood.numericalNames ∧ tGood.ssdOf "WQI" ≠ 0 ∧
      tGood.corrMatrix "WQI" "ID" = tGood.corrMatrix "ID" "WQI" ∧
      tGood.corrMatrix "WQI" "WQI" = 1 := by
  have hv : tGood.ssdOf "WQI" ≠ 0 := by
    norm_num [Table.ssdOf, Table.getCol, ssd, listMean, Column.numVals,
      Value.toRat, tGood, List.find?]
  have h := corrMatrix_symm_diag_one tGood "WQI" "ID" "WQI" (by decide)
  exact ⟨by decide, by decide, hv, h.1, h.2 (by decide) hv⟩

/-- C6.  When no column is named `WQI`, the correlation cell takes the
warning branch: the filesystem is unchanged (no heatmap file), the only
print is the warning, and nothing is raised. -/
theorem corr_stage_skips_without_wqi (t : Table) (fs : List String)
    (h : "WQI" ∉ t.colNames) :
    corrStage t fs = ⟨fs, [wqiWarning], none⟩ := by
  unfold corrStage
  rw [if_neg h]

/-- Witness for C6 at `tNoTargets`, which has no `WQI` column. -/
theorem corr_stage_skips_without_wqi_witness :
    "WQI" ∉ tNoTargets.colNames ∧
      corrStage tNoTargets [] = ⟨[], [wqiWarning], none⟩ :=
  ⟨by decide, corr_stage_skips_without_wqi tNoTargets [] (by decide)⟩

/-- C7.  When no column is named `Water Quality Classification`, the
distribution cell takes the warning branch: the filesystem is unchanged
(no plot file), the only print is the warning, and nothing is
raised. -/
theorem target_stage_skips_without_label (t : Table) (fs : List String)
    (h : targetColName ∉ t.colNames) :
    targetStage t fs = ⟨fs, [targetWarning], none⟩ := by
  unfold targetStage
  rw [if_neg h]

/-- Witness for C7 at `tNoTargets`, which has no target label column. -/
theorem target_stage_skips_without_label_witness :
    targetColName ∉ tNoTargets.colNames ∧
      targetStage tNoTargets [] = ⟨[], [targetWarning], none⟩ :=
  ⟨by decide, target_stage_skips_without_label tNoTargets [] (by decide)⟩

/-- C8.  Whenever the correlation cell runs its computation (`WQI`
survives `numeric_only=True`), the printed `wqi_corr` sequence is a
permutation of the `WQI` row of the correlation matrix and is sorted in
descending order of correlation value. -/
theorem wqi_corr_sorted_desc (t : Table) (h : "WQI" ∈ t.numericLikeNames) :
    t.wqiCorrSorted.Perm t.wqiRow ∧ List.Sorted descRel t.wqiCorrSorted :=
  ⟨List.perm_insertionSort descRel t.wqiRow,
    List.sorted_insertionSort descRel t.wqiRow⟩

/-- Witness for C8 at `tGood`, whose `WQI` column is numeric. -/
theorem wqi_corr_sorted_desc_witness :
    "WQI" ∈ tGood.numericLikeNames ∧
      (tGood.wqiCorrSorted.Perm tGood.wqiRow ∧
        List.Sorted descRel tGood.wqiCorrSorted) :=
  ⟨by decide, wqi_corr_sorted_desc tGood (by decide)⟩

/-- The directory creation step establishes the figures directory. -/
theorem mem_mkFiguresDir (fs : List String) : figuresDir ∈ mkFiguresDir fs := by
  unfold mkFiguresDir
  split
  · assumption
  · exact List.mem_cons_self _ _

/-- The correlation cell never removes a path. -/
theorem corrStage_fs_mono (df : Table) (fs : List String) {x : String}
    (hx : x ∈ fs) : x ∈ (corrStage df fs).fs := by
  by_cases h1 : "WQI" ∈ df.colNames
  · by_cases h2 : "WQI" ∈ df.numericLikeNames
    · simp [corrStage, h1, h2]
      exact Or.inr hx
    · simp [corrStage, h1, h2, hx]
  · simp [corrStage, h1, hx]

/-- The target-distribution cell never removes a path. -/
theorem targetStage_fs_mono (df : Table) (fs : List String) {x : String}
    (hx : x ∈ fs) : x ∈ (targetStage df fs).fs := by
  by_cases h1 : targetColName ∈ df.colNames
  · simp [targetStage, h1]
    exact Or.inr hx
  · simp [targetStage, h1, hx]

/-- The feature-distribution cell never removes a path. -/
theorem featureDistStage_fs_mono (df : Table) (fs : List String) {x : String}
    (hx : x ∈ fs) : x ∈ (featureDistStage df fs).fs := by
  by_cases h1 : df.empty = true
  · simp [featureDistStage, h1, hx]
  · simp [featureDistStage, h1]
    exact Or.inr hx

/-- C9.  The figures directory is created before the CSV is read, so it
exists after every run — whatever the filesystem started as and
whatever the CSV contained, including runs that abort in the load or
correlation cells. -/
theorem figures_dir_exists_after_run (fs0 : List String) (input : CsvData) :
    figuresDir ∈ (runWorkflow fs0 input).fs := by
  cases input with
  | missing =>
    simp only [runWorkflow, loadStage, read_csv]
    exact featureDistStage_fs_mono _ _
      (targetStage_fs_mono _ _ (corrStage_fs_mono _ _ (mem_mkFiguresDir fs0)))
  | malformed =>
    simp only [runWorkflow, loadStage, read_csv]
    exact mem_mkFiguresDir fs0
  | table t =>
    simp only [runWorkflow, loadStage, read_csv]
    by_cases h1 : "WQI" ∈ t.colNames
    · by_cases h2 : "WQI" ∈ t.numericLikeNames
      · simp [corrStage, h1, h2]
        exact featureDistStage_fs_mono _ _
          (targetStage_fs_mono _ _ (List.mem_cons_of_mem _ (mem_mkFiguresDir fs0)))
      · simp [corrStage, h1, h2]
        exact mem_mkFiguresDir fs0
    · simp [corrStage, h1]
      exact featureDistStage_fs_mono _ _
        (targetStage_fs_mono _ _ (mem_mkFiguresDir fs0))

/-- C10.  The correlation guard checks only the presence of the name
`WQI`, not its dtype: on `tBadWQI` (well-formed, `WQI` of object
dtype) the guard lets the stage run, the warning branch is not taken,
and `correlation['WQI']` raises `KeyError`. -/
theorem wqi_guard_ignores_dtype :
    tBadWQI.wf ∧ "WQI" ∈ tBadWQI.colNames ∧
      corrStage tBadWQI [] = ⟨[], [], some PdError.keyError⟩ := by
  refine ⟨by decide, by decide, rfl⟩
